/-
Verification of the thetradingdesk python client (src/ttdapi/client.py)
against its natural-language specification.

The client is embedded shallowly: JSON bodies are a small inductive type,
the requests.Session transport is an oracle mapping the index of each
network call to an HTTP response, and every client method becomes a pure
function threading an explicit client state (token + session headers) and
a world (the oracle plus the trace of issued calls).  Python exceptions
become an explicit error type.
-/
import Mathlib

set_option autoImplicit false

/-- A parsed JSON value, as produced by `resp.json()` and consumed by the
client.  Objects are association lists in insertion order, matching Python
dict semantics for the lookups the client performs. -/
inductive JsonVal where
  | str (s : String)
  | num (n : Int)
  | bool (b : Bool)
  | null
  | arr (elems : List JsonVal)
  | obj (fields : List (String × JsonVal))

/-- First-match association-list lookup: the semantics of `d[k]` on the
dicts the client builds (keys are unique in all payloads it constructs). -/
def dictFind {α : Type} : List (String × α) → String → Option α
  | [], _ => none
  | (k2, v) :: rest, k => if k2 = k then some v else dictFind rest k

/-- Set one key, replacing in place when present and appending otherwise:
the semantics of a single-key Python `dict` assignment/update (dict keys
are unique, so replacing the first occurrence is replacement in place). -/
def dictSet {α : Type} : List (String × α) → String → α → List (String × α)
  | [], k, v => [(k, v)]
  | (k2, v2) :: rest, k, v =>
    if k2 = k then (k, v) :: rest else (k2, v2) :: dictSet rest k v

/-- Python `d.update(kvs)`: fold `dictSet` over the new bindings. -/
def dictMerge {α : Type} (d : List (String × α)) (kvs : List (String × α)) : List (String × α) :=
  kvs.foldl (fun acc kv => dictSet acc kv.1 kv.2) d

/-- Indexing `resp_json[k]`, restricted to objects; non-objects have no keys (the
client only indexes into parsed JSON objects). -/
def JsonVal.lookup : JsonVal → String → Option JsonVal
  | JsonVal.obj fields, k => dictFind fields k
  | _, _ => none

/-- Setting a key makes it the value found at that key. -/
theorem dictFind_dictSet_self {α : Type} (d : List (String × α)) (k : String) (v : α) :
    dictFind (dictSet d k v) k = some v := by
  induction d with
  | nil => simp [dictSet, dictFind]
  | cons hd tl ih =>
    obtain ⟨k2, v2⟩ := hd
    by_cases hk : k2 = k
    · simp [dictSet, dictFind, hk]
    · simp [dictSet, dictFind, hk, ih]

/-- Setting one key leaves every other key unchanged. -/
theorem dictFind_dictSet_ne {α : Type} (d : List (String × α)) (k k2 : String) (v : α)
    (hne : k ≠ k2) : dictFind (dictSet d k2 v) k = dictFind d k := by
  have hne2 : ¬(k2 = k) := fun hq => hne hq.symm
  induction d with
  | nil => simp [dictSet, dictFind, hne2]
  | cons hd tl ih =>
    obtain ⟨k3, v3⟩ := hd
    by_cases hk : k3 = k2
    · subst hk
      simp [dictSet, dictFind, hne2]
    · simp [dictSet, dictFind, hk, ih]

/-- A server-side HTTP response as the client observes it: the status code,
the raw text (used in error messages) and the parsed JSON body. -/
structure HttpResponse where
  statusCode : Nat
  text : String
  json : JsonVal

/-- One outgoing network call as issued through the underlying session:
method, absolute URL, optional JSON body, and the value of the fixed
`TTD-Auth` session header at the moment of the call. -/
structure HttpCall where
  method : String
  url : String
  jsonBody : Option JsonVal
  ttdAuthHeader : Option String

/-- The environment: an oracle giving the response to the n-th network call
issued in the whole run, plus the trace of calls issued so far. -/
structure World where
  server : Nat → HttpResponse
  calls : List HttpCall

/-- A world in which no call has been issued yet. -/
def emptyWorld (srv : Nat → HttpResponse) : World :=
  { server := srv, calls := [] }

/-- Issue one call through the session: read off the oracle response for
the current call index and append the call to the trace. -/
def sessionSend (w : World) (c : HttpCall) : HttpResponse × World :=
  (w.server w.calls.length, { server := w.server, calls := w.calls ++ [c] })

/-- The mutable state of a `BaseTTDClient` instance: constructor-supplied
credentials and configuration, the cached `_token`, and the session default
headers (only the `TTD-Auth` entry is ever written by the client). -/
structure ClientState where
  baseUrl : String
  login : String
  password : String
  tokenExpiresIn : Int
  token : Option String
  headers : List (String × String)

/-- Embedding of `BaseTTDClient.__init__`: credentials stored, `_token` starts absent,
no auth header installed. -/
def initClient (login password : String) (tokenExpiresIn : Int) (baseUrl : String) : ClientState :=
  { baseUrl := baseUrl, login := login, password := password,
    tokenExpiresIn := tokenExpiresIn, token := none, headers := [] }

/-- Modelled from the spec: the exception types of `ttdapi.exceptions`
(whose source file is not present), which the spec says carry the response
body and status; `keyError` and `typeError` stand for the Python built-in
exceptions raised by indexing a response dict or iterating a non-list. -/
inductive PyExn where
  | ttdApiPermissionsError (message : String) (status : Nat)
  | ttdApiError (message : String) (status : Nat)
  | keyError (key : String)
  | typeError (message : String)

/-- Outcome of running a client method: the returned value or the raised
exception, together with the client state and world after the run (Python
state mutations persist even when an exception propagates). -/
structure CallResult (α : Type) where
  value : Except PyExn α
  state : ClientState
  world : World

/-- Model of `requests.Response.raise_for_status`: it raises exactly for 4xx and 5xx. -/
def isErrorStatus (s : Nat) : Bool :=
  decide (400 ≤ s ∧ s < 600)

/-- Python `endpoint.lstrip("/")`: drop every leading slash. -/
def lstripSlashes (s : String) : String :=
  String.mk (s.data.dropWhile (fun c => c = '/'))

/-- Everything up to and including the last slash of `base`; the RFC 3986
merge step used by `urljoin` for a relative reference. -/
def baseDirOf (base : String) : String :=
  String.mk (List.reverse (base.data.reverse.dropWhile (fun c => c ≠ '/')))

/-- Model of `urllib.parse.urljoin` for the shapes the client produces: an
absolute base URL and a scheme-less relative reference with no leading
slash (`_build_url` strips all leading slashes before joining). -/
def urljoin (base rel : String) : String :=
  if rel = "" then base else baseDirOf base ++ rel

/-- Embedding of `BaseTTDClient._build_url`: join the endpoint, with leading slashes
stripped, onto the configured base URL. -/
def buildUrl (baseUrl endpoint : String) : String :=
  urljoin baseUrl (lstripSlashes endpoint)

/-- C9: for every endpoint string and every base origin, resolving the
endpoint with and without a leading path separator yields the same final
URL (the separator is stripped before joining), and relative paths are
joined onto the directory of the base rather than concatenated, as the
default production origin illustrates. -/
theorem claim_C9_url_joining (base e : String) :
    buildUrl base ("/" ++ e) = buildUrl base e ∧
    buildUrl "https://api.thetradedesk.com/v3/" "campaign"
      = "https://api.thetradedesk.com/v3/" ++ "campaign" := by
  constructor
  · unfold buildUrl lstripSlashes
    have hdata : ("/" ++ e).data = '/' :: e.data := by
      simp [String.data_append]
    rw [hdata]
    simp [List.dropWhile]
  · rfl

namespace BaseTTDClient

/-- The `token` property setter: store the new token and update the
session default `TTD-Auth` header in the same step. -/
def setToken (st : ClientState) (newToken : String) : ClientState :=
  { st with token := some newToken,
            headers := dictSet st.headers "TTD-Auth" newToken }

/-- The JSON body `_refresh_token` posts to the authentication endpoint. -/
def authRequestBody (st : ClientState) (expiresIn : Int) : JsonVal :=
  JsonVal.obj [("Login", JsonVal.str st.login),
               ("Password", JsonVal.str st.password),
               ("TokenExpirationInMinutes", JsonVal.num expiresIn)]

/-- The network call `_refresh_token` issues, as seen on the wire. -/
def authCall (st : ClientState) (expiresIn : Int) : HttpCall :=
  { method := "POST", url := buildUrl st.baseUrl "authentication",
    jsonBody := some (authRequestBody st expiresIn),
    ttdAuthHeader := dictFind st.headers "TTD-Auth" }

/-- Embedding of `BaseTTDClient._refresh_token`: post the credentials to
`authentication`; 401/403 raises the permissions error, any other non-2xx
raises the API error, otherwise the `Token` field of the body is installed
through the `token` setter.  A missing (or non-string) `Token` field is
collapsed into the `KeyError` the lookup would raise. -/
def refreshToken (st : ClientState) (w : World) (expiresIn : Int) : CallResult Unit :=
  let p := sessionSend w (authCall st expiresIn)
  let resp := p.1
  let w1 := p.2
  if isErrorStatus resp.statusCode then
    if resp.statusCode = 401 ∨ resp.statusCode = 403 then
      { value := Except.error (PyExn.ttdApiPermissionsError resp.text resp.statusCode),
        state := st, world := w1 }
    else
      { value := Except.error (PyExn.ttdApiError resp.text resp.statusCode),
        state := st, world := w1 }
  else
    match resp.json.lookup "Token" with
    | some (JsonVal.str t) => { value := Except.ok (), state := setToken st t, world := w1 }
    | _ => { value := Except.error (PyExn.keyError "Token"), state := st, world := w1 }

/-- The `token` property getter: reuse the cached token, refreshing first
(with the configured `token_expires_in`) when it is absent. -/
def getToken (st : ClientState) (w : World) : CallResult (Option String) :=
  match st.token with
  | some t => { value := Except.ok (some t), state := st, world := w }
  | none =>
    let r := refreshToken st w st.tokenExpiresIn
    match r.value with
    | Except.error e => { value := Except.error e, state := r.state, world := r.world }
    | Except.ok _ => { value := Except.ok r.state.token, state := r.state, world := r.world }

/-- The network call `_request` issues for its target endpoint under state
`st`: the `TTD-Auth` header is whatever the session headers currently hold. -/
def targetCall (st : ClientState) (method url : String) (jsonBody : Option JsonVal) : HttpCall :=
  { method := method, url := url, jsonBody := jsonBody,
    ttdAuthHeader := dictFind st.headers "TTD-Auth" }

/-- Embedding of `BaseTTDClient._request`: issue the call; on 401/403 force one token
refresh (with the default 90-minute lifetime) and retry the identical call
once, wrapping any retry failure in the API error; any other non-2xx on
the first attempt raises the API error immediately.  No token is fetched
before the first attempt. -/
def request (st : ClientState) (w : World) (method url : String) (jsonBody : Option JsonVal) :
    CallResult HttpResponse :=
  let p := sessionSend w (targetCall st method url jsonBody)
  let resp := p.1
  let w1 := p.2
  if isErrorStatus resp.statusCode then
    if resp.statusCode = 401 ∨ resp.statusCode = 403 then
      let r := refreshToken st w1 90
      match r.value with
      | Except.error e => { value := Except.error e, state := r.state, world := r.world }
      | Except.ok _ =>
        let p2 := sessionSend r.world (targetCall r.state method url jsonBody)
        let resp2 := p2.1
        let w2 := p2.2
        if isErrorStatus resp2.statusCode then
          { value := Except.error (PyExn.ttdApiError resp2.text resp2.statusCode),
            state := r.state, world := w2 }
        else
          { value := Except.ok resp2, state := r.state, world := w2 }
    else
      { value := Except.error (PyExn.ttdApiError resp.text resp.statusCode),
        state := st, world := w1 }
  else
    { value := Except.ok resp, state := st, world := w1 }

/-- Embedding of `BaseTTDClient.get`: authenticated GET, returning the parsed body. -/
def get (st : ClientState) (w : World) (endpoint : String) : CallResult JsonVal :=
  let r := request st w "GET" (buildUrl st.baseUrl endpoint) none
  { value := r.value.map (fun resp => resp.json), state := r.state, world := r.world }

/-- Embedding of `BaseTTDClient.post`: authenticated POST with a JSON body, returning
the parsed body. -/
def post (st : ClientState) (w : World) (endpoint : String) (jsonBody : JsonVal) : CallResult JsonVal :=
  let r := request st w "POST" (buildUrl st.baseUrl endpoint) (some jsonBody)
  { value := r.value.map (fun resp => resp.json), state := r.state, world := r.world }

end BaseTTDClient

/-- The refresh `_refresh_token` issues exactly one network call — the POST to the
authentication endpoint — in every branch. -/
theorem refreshToken_world (st : ClientState) (w : World) (ei : Int) :
    (BaseTTDClient.refreshToken st w ei).world =
      { server := w.server, calls := w.calls ++ [BaseTTDClient.authCall st ei] } := by
  unfold BaseTTDClient.refreshToken sessionSend
  dsimp only
  split
  · split <;> rfl
  · split <;> rfl

/-- C7: when the authentication endpoint answers a refresh with 401 or 403
the refresh raises the permissions error carrying the response body and
status after exactly one network call (zero retries); any other non-2xx
answer raises the API error carrying the body and status, again after
exactly one call. -/
theorem claim_C7_refresh_error_taxonomy
    (srvA srvB : Nat → HttpResponse) (stA stB : ClientState) (eiA eiB : Int)
    (hA : (srvA 0).statusCode = 401 ∨ (srvA 0).statusCode = 403)
    (hBerr : isErrorStatus (srvB 0).statusCode = true)
    (hB1 : (srvB 0).statusCode ≠ 401) (hB2 : (srvB 0).statusCode ≠ 403) :
    BaseTTDClient.refreshToken stA (emptyWorld srvA) eiA =
      { value := Except.error (PyExn.ttdApiPermissionsError (srvA 0).text (srvA 0).statusCode),
        state := stA,
        world := { server := srvA, calls := [BaseTTDClient.authCall stA eiA] } } ∧
    BaseTTDClient.refreshToken stB (emptyWorld srvB) eiB =
      { value := Except.error (PyExn.ttdApiError (srvB 0).text (srvB 0).statusCode),
        state := stB,
        world := { server := srvB, calls := [BaseTTDClient.authCall stB eiB] } } := by
  have hAerr : isErrorStatus (srvA 0).statusCode = true := by
    rcases hA with h | h <;> rw [h] <;> decide
  have hBor : ¬((srvB 0).statusCode = 401 ∨ (srvB 0).statusCode = 403) := by
    rintro (h | h)
    · exact hB1 h
    · exact hB2 h
  constructor
  · unfold BaseTTDClient.refreshToken sessionSend emptyWorld
    dsimp only
    rw [List.length_nil, hAerr, if_pos hA]
    rfl
  · unfold BaseTTDClient.refreshToken sessionSend emptyWorld
    dsimp only
    rw [List.length_nil, hBerr, if_neg hBor]
    rfl

/-- C7 witness: a 403 from the authentication endpoint raises the
permissions error and a 500 raises the API error, each after one call. -/
theorem claim_C7_refresh_error_taxonomy_witness :
    BaseTTDClient.refreshToken (initClient "u" "p" 90 "https://api.thetradedesk.com/v3/")
        (emptyWorld (fun _ => { statusCode := 403, text := "denied", json := JsonVal.null })) 90 =
      { value := Except.error (PyExn.ttdApiPermissionsError "denied" 403),
        state := initClient "u" "p" 90 "https://api.thetradedesk.com/v3/",
        world := { server := fun _ => { statusCode := 403, text := "denied", json := JsonVal.null },
                   calls := [BaseTTDClient.authCall
                     (initClient "u" "p" 90 "https://api.thetradedesk.com/v3/") 90] } } ∧
    BaseTTDClient.refreshToken (initClient "u" "p" 90 "https://api.thetradedesk.com/v3/")
        (emptyWorld (fun _ => { statusCode := 500, text := "boom", json := JsonVal.null })) 90 =
      { value := Except.error (PyExn.ttdApiError "boom" 500),
        state := initClient "u" "p" 90 "https://api.thetradedesk.com/v3/",
        world := { server := fun _ => { statusCode := 500, text := "boom", json := JsonVal.null },
                   calls := [BaseTTDClient.authCall
                     (initClient "u" "p" 90 "https://api.thetradedesk.com/v3/") 90] } } :=
  claim_C7_refresh_error_taxonomy _ _ _ _ _ _ (Or.inr rfl) rfl
    (by decide) (by decide)

/-- The credential-carrier invariant: whenever a token is current, the
session `TTD-Auth` header carries exactly that token (the state holds at
most one token by construction — a single optional field). -/
def authHeaderOk (st : ClientState) : Bool :=
  match st.token with
  | none => true
  | some t => decide (dictFind st.headers "TTD-Auth" = some t)

/-- The token setter establishes the invariant. -/
theorem authHeaderOk_setToken (st : ClientState) (t : String) :
    authHeaderOk (BaseTTDClient.setToken st t) = true := by
  simp [authHeaderOk, BaseTTDClient.setToken, dictFind_dictSet_self]

/-- Refreshing via `_refresh_token` preserves the invariant: it either leaves the state
untouched or installs the fresh token through the setter. -/
theorem authHeaderOk_refreshToken (st : ClientState) (w : World) (ei : Int)
    (h : authHeaderOk st = true) :
    authHeaderOk ((BaseTTDClient.refreshToken st w ei).state) = true := by
  unfold BaseTTDClient.refreshToken sessionSend
  dsimp only
  split
  · split <;> exact h
  · split
    · exact authHeaderOk_setToken st _
    · exact h

/-- Executing `_request` preserves the invariant in every branch. -/
theorem authHeaderOk_request (st : ClientState) (w : World) (method url : String)
    (body : Option JsonVal) (h : authHeaderOk st = true) :
    authHeaderOk ((BaseTTDClient.request st w method url body).state) = true := by
  unfold BaseTTDClient.request sessionSend
  dsimp only
  split
  · split
    · split
      · exact authHeaderOk_refreshToken st _ 90 h
      · split <;> exact authHeaderOk_refreshToken st _ 90 h
    · exact h
  · exact h

/-- The `token` getter preserves the invariant. -/
theorem authHeaderOk_getToken (st : ClientState) (w : World)
    (h : authHeaderOk st = true) :
    authHeaderOk ((BaseTTDClient.getToken st w).state) = true := by
  unfold BaseTTDClient.getToken
  dsimp only
  split
  · exact h
  · split <;> exact authHeaderOk_refreshToken st _ _ h

/-- C8: installing a new token atomically updates the credential carrier —
after the setter runs, the current token is the new one and the fixed
`TTD-Auth` session header equals it (the state carries at most one token,
a single optional field) — and the invariant "the auth header equals the
current token" is preserved by every operation that sets or refreshes the
token: the setter itself, `_refresh_token`, `_request` and the `token`
getter. -/
theorem claim_C8_token_header_invariant
    (st : ClientState) (t : String) (st2 : ClientState) (w wA wB : World)
    (method url : String) (body : Option JsonVal) (ei : Int)
    (hinv : authHeaderOk st2 = true) :
    ((BaseTTDClient.setToken st t).token = some t ∧
      dictFind (BaseTTDClient.setToken st t).headers "TTD-Auth" = some t ∧
      authHeaderOk (BaseTTDClient.setToken st t) = true) ∧
    authHeaderOk ((BaseTTDClient.refreshToken st2 w ei).state) = true ∧
    authHeaderOk ((BaseTTDClient.request st2 wA method url body).state) = true ∧
    authHeaderOk ((BaseTTDClient.getToken st2 wB).state) = true :=
  ⟨⟨rfl, dictFind_dictSet_self st.headers "TTD-Auth" t, authHeaderOk_setToken st t⟩,
   authHeaderOk_refreshToken st2 w ei hinv,
   authHeaderOk_request st2 wA method url body hinv,
   authHeaderOk_getToken st2 wB hinv⟩

/-- C8 witness: the invariant facts evaluated on a concrete client whose
token was installed through the setter, against a server that always
answers 401. -/
theorem claim_C8_token_header_invariant_witness :
    authHeaderOk (BaseTTDClient.setToken (initClient "u" "p" 90 "b/") "tok0") = true ∧
    ((BaseTTDClient.setToken (initClient "u" "p" 90 "b/") "tok1").token = some "tok1" ∧
      dictFind (BaseTTDClient.setToken (initClient "u" "p" 90 "b/") "tok1").headers "TTD-Auth"
        = some "tok1" ∧
      authHeaderOk (BaseTTDClient.setToken (initClient "u" "p" 90 "b/") "tok1") = true) ∧
    authHeaderOk ((BaseTTDClient.refreshToken
      (BaseTTDClient.setToken (initClient "u" "p" 90 "b/") "tok0")
      (emptyWorld (fun _ => { statusCode := 401, text := "no", json := JsonVal.null })) 90).state)
      = true ∧
    authHeaderOk ((BaseTTDClient.request
      (BaseTTDClient.setToken (initClient "u" "p" 90 "b/") "tok0")
      (emptyWorld (fun _ => { statusCode := 401, text := "no", json := JsonVal.null }))
      "GET" "b/x" none).state) = true ∧
    authHeaderOk ((BaseTTDClient.getToken
      (BaseTTDClient.setToken (initClient "u" "p" 90 "b/") "tok0")
      (emptyWorld (fun _ => { statusCode := 401, text := "no", json := JsonVal.null }))).state)
      = true :=
  ⟨by decide,
   claim_C8_token_header_invariant (initClient "u" "p" 90 "b/") "tok1"
     (BaseTTDClient.setToken (initClient "u" "p" 90 "b/") "tok0")
     (emptyWorld (fun _ => { statusCode := 401, text := "no", json := JsonVal.null }))
     (emptyWorld (fun _ => { statusCode := 401, text := "no", json := JsonVal.null }))
     (emptyWorld (fun _ => { statusCode := 401, text := "no", json := JsonVal.null }))
     "GET" "b/x" none 90 (by decide)⟩

/-- When the first response to `_request` is 401/403 and the refresh then
succeeds with token `tok`, the run consists of exactly three calls — the
target call, the single auth call (with the hard-coded 90-minute
lifetime), and the identical target call re-issued under the new token —
and the final outcome is decided by the retry status alone. -/
theorem request_reauth_trace (srv : Nat → HttpResponse) (st : ClientState)
    (method url : String) (body : Option JsonVal) (tok : String)
    (h0 : (srv 0).statusCode = 401 ∨ (srv 0).statusCode = 403)
    (h1e : isErrorStatus (srv 1).statusCode = false)
    (h1t : (srv 1).json.lookup "Token" = some (JsonVal.str tok)) :
    BaseTTDClient.request st (emptyWorld srv) method url body =
      (if isErrorStatus (srv 2).statusCode then
        { value := Except.error (PyExn.ttdApiError (srv 2).text (srv 2).statusCode),
          state := BaseTTDClient.setToken st tok,
          world := { server := srv,
                     calls := [BaseTTDClient.targetCall st method url body,
                               BaseTTDClient.authCall st 90,
                               BaseTTDClient.targetCall (BaseTTDClient.setToken st tok)
                                 method url body] } }
      else
        { value := Except.ok (srv 2),
          state := BaseTTDClient.setToken st tok,
          world := { server := srv,
                     calls := [BaseTTDClient.targetCall st method url body,
                               BaseTTDClient.authCall st 90,
                               BaseTTDClient.targetCall (BaseTTDClient.setToken st tok)
                                 method url body] } }) := by
  have h0e : isErrorStatus (srv 0).statusCode = true := by
    rcases h0 with h | h <;> rw [h] <;> decide
  unfold BaseTTDClient.request BaseTTDClient.refreshToken sessionSend emptyWorld
  dsimp only
  rw [List.length_nil, h0e, if_pos h0]
  dsimp only [List.nil_append, List.length_cons, List.length_nil]
  rw [h1e, h1t]
  rfl

/-- Any other non-2xx on the first attempt fails immediately with the API
error, after exactly one call and with the state untouched. -/
theorem request_immediate_error (srv : Nat → HttpResponse) (st : ClientState)
    (method url : String) (body : Option JsonVal)
    (h : isErrorStatus (srv 0).statusCode = true)
    (h1 : (srv 0).statusCode ≠ 401) (h2 : (srv 0).statusCode ≠ 403) :
    BaseTTDClient.request st (emptyWorld srv) method url body =
      { value := Except.error (PyExn.ttdApiError (srv 0).text (srv 0).statusCode),
        state := st,
        world := { server := srv,
                   calls := [BaseTTDClient.targetCall st method url body] } } := by
  have hor : ¬((srv 0).statusCode = 401 ∨ (srv 0).statusCode = 403) := by
    rintro (h | h)
    · exact h1 h
    · exact h2 h
  unfold BaseTTDClient.request sessionSend emptyWorld
  dsimp only
  rw [List.length_nil, h, if_neg hor]
  rfl

/-- A 2xx first response is returned as-is after exactly one call. -/
theorem request_first_ok (srv : Nat → HttpResponse) (st : ClientState)
    (method url : String) (body : Option JsonVal)
    (h : isErrorStatus (srv 0).statusCode = false) :
    BaseTTDClient.request st (emptyWorld srv) method url body =
      { value := Except.ok (srv 0),
        state := st,
        world := { server := srv,
                   calls := [BaseTTDClient.targetCall st method url body] } } := by
  unfold BaseTTDClient.request sessionSend emptyWorld
  dsimp only
  rw [List.length_nil, h]
  rfl

/-- Whatever the server does, `_request` sends at most two calls to a
target endpoint distinct from the authentication endpoint. -/
theorem request_target_calls_le_two (srv : Nat → HttpResponse) (st : ClientState)
    (method url : String) (body : Option JsonVal)
    (hne : url ≠ buildUrl st.baseUrl "authentication") :
    ((BaseTTDClient.request st (emptyWorld srv) method url body).world.calls.filter
        (fun c => decide (c.url = url))).length ≤ 2 := by
  have hauth : ∀ ei : Int, (decide ((BaseTTDClient.authCall st ei).url = url)) = false := by
    intro ei
    simp only [BaseTTDClient.authCall, decide_eq_false_iff_not]
    exact fun h => hne h.symm
  have htgt : ∀ st2 : ClientState,
      (decide ((BaseTTDClient.targetCall st2 method url body).url = url)) = true := by
    intro st2
    simp [BaseTTDClient.targetCall]
  unfold BaseTTDClient.request sessionSend emptyWorld
  dsimp only
  split
  · split
    · split
      · simp [refreshToken_world, List.filter_append, List.filter, hauth, htgt]
      · split <;>
          simp [refreshToken_world, List.filter_append, List.filter, hauth, htgt]
    · simp [List.filter, htgt]
  · simp [List.filter, htgt]

/-- A three-step scripted server: response `r0` to the first call, `r1` to
the second, `r2` to every later call. -/
def scenarioServer (r0 r1 r2 : HttpResponse) : Nat → HttpResponse :=
  fun n => if n = 0 then r0 else if n = 1 then r1 else r2

/-- A client as built by the constructor with the default base URL. -/
def demoClient : ClientState :=
  initClient "login" "secret" 90 "https://api.thetradedesk.com/v3/"

/-- A successful authentication response installing token `tok`. -/
def authOkResponse (tok : String) : HttpResponse :=
  { statusCode := 200, text := "", json := JsonVal.obj [("Token", JsonVal.str tok)] }

/-- C1: if the first response to an authenticated request is 401/403 and
the token refresh succeeds, exactly one refresh happens and the identical
call is retried exactly once under the new token — the full trace is the
target call, one auth call, and the re-issued target call; a non-2xx retry
fails with the API error while a 2xx retry returns the response; any other
non-2xx on the first attempt fails with the API error immediately after a
single call; and against any server at all, at most two calls reach a
target endpoint distinct from the authentication endpoint. -/
theorem claim_C1_reauth_once
    (st : ClientState) (method url : String) (body : Option JsonVal)
    (srvA srvB srvC srvD : Nat → HttpResponse) (tokA tokB : String)
    (hA0 : (srvA 0).statusCode = 401 ∨ (srvA 0).statusCode = 403)
    (hA1e : isErrorStatus (srvA 1).statusCode = false)
    (hA1t : (srvA 1).json.lookup "Token" = some (JsonVal.str tokA))
    (hA2 : isErrorStatus (srvA 2).statusCode = true)
    (hB0 : (srvB 0).statusCode = 401 ∨ (srvB 0).statusCode = 403)
    (hB1e : isErrorStatus (srvB 1).statusCode = false)
    (hB1t : (srvB 1).json.lookup "Token" = some (JsonVal.str tokB))
    (hB2 : isErrorStatus (srvB 2).statusCode = false)
    (hC : isErrorStatus (srvC 0).statusCode = true)
    (hC1 : (srvC 0).statusCode ≠ 401) (hC2 : (srvC 0).statusCode ≠ 403)
    (hD : url ≠ buildUrl st.baseUrl "authentication") :
    (BaseTTDClient.request st (emptyWorld srvA) method url body =
      { value := Except.error (PyExn.ttdApiError (srvA 2).text (srvA 2).statusCode),
        state := BaseTTDClient.setToken st tokA,
        world := { server := srvA,
                   calls := [BaseTTDClient.targetCall st method url body,
                             BaseTTDClient.authCall st 90,
                             BaseTTDClient.targetCall (BaseTTDClient.setToken st tokA)
                               method url body] } } ∧
      (BaseTTDClient.targetCall (BaseTTDClient.setToken st tokA) method url body).ttdAuthHeader
        = some tokA) ∧
    BaseTTDClient.request st (emptyWorld srvB) method url body =
      { value := Except.ok (srvB 2),
        state := BaseTTDClient.setToken st tokB,
        world := { server := srvB,
                   calls := [BaseTTDClient.targetCall st method url body,
                             BaseTTDClient.authCall st 90,
                             BaseTTDClient.targetCall (BaseTTDClient.setToken st tokB)
                               method url body] } } ∧
    BaseTTDClient.request st (emptyWorld srvC) method url body =
      { value := Except.error (PyExn.ttdApiError (srvC 0).text (srvC 0).statusCode),
        state := st,
        world := { server := srvC,
                   calls := [BaseTTDClient.targetCall st method url body] } } ∧
    ((BaseTTDClient.request st (emptyWorld srvD) method url body).world.calls.filter
        (fun c => decide (c.url = url))).length ≤ 2 := by
  refine ⟨⟨?_, ?_⟩, ?_, ?_, ?_⟩
  · rw [request_reauth_trace srvA st method url body tokA hA0 hA1e hA1t, if_pos hA2]
  · simp [BaseTTDClient.targetCall, BaseTTDClient.setToken, dictFind_dictSet_self]
  · rw [request_reauth_trace srvB st method url body tokB hB0 hB1e hB1t, if_neg]
    rw [hB2]
    simp
  · exact request_immediate_error srvC st method url body hC hC1 hC2
  · exact request_target_calls_le_two srvD st method url body hD

/-- C1 witness: against a server answering 401 to every target call (with
a working auth endpoint) the operation makes the target call twice, one
auth call in between, and fails with the API error; with a 200 after the
refresh it succeeds; a 500 fails immediately; and the target endpoint is
hit at most twice. -/
theorem claim_C1_reauth_once_witness :
    (BaseTTDClient.request demoClient
        (emptyWorld (scenarioServer { statusCode := 401, text := "no", json := JsonVal.null }
          (authOkResponse "t0") { statusCode := 401, text := "no", json := JsonVal.null }))
        "GET" "https://api.thetradedesk.com/v3/campaign" none).value
      = Except.error (PyExn.ttdApiError "no" 401) ∧
    (BaseTTDClient.request demoClient
        (emptyWorld (scenarioServer { statusCode := 401, text := "no", json := JsonVal.null }
          (authOkResponse "t0") { statusCode := 401, text := "no", json := JsonVal.null }))
        "GET" "https://api.thetradedesk.com/v3/campaign" none).world.calls.length = 3 ∧
    (BaseTTDClient.request demoClient
        (emptyWorld (scenarioServer { statusCode := 401, text := "no", json := JsonVal.null }
          (authOkResponse "t0") { statusCode := 200, text := "ok", json := JsonVal.null }))
        "GET" "https://api.thetradedesk.com/v3/campaign" none).value
      = Except.ok { statusCode := 200, text := "ok", json := JsonVal.null } ∧
    (BaseTTDClient.request demoClient
        (emptyWorld (fun _ => { statusCode := 500, text := "boom", json := JsonVal.null }))
        "GET" "https://api.thetradedesk.com/v3/campaign" none).value
      = Except.error (PyExn.ttdApiError "boom" 500) ∧
    ((BaseTTDClient.request demoClient
        (emptyWorld (scenarioServer { statusCode := 401, text := "no", json := JsonVal.null }
          (authOkResponse "t0") { statusCode := 401, text := "no", json := JsonVal.null }))
        "GET" "https://api.thetradedesk.com/v3/campaign" none).world.calls.filter
        (fun c => decide (c.url = "https://api.thetradedesk.com/v3/campaign"))).length ≤ 2 := by
  have h := claim_C1_reauth_once demoClient "GET" "https://api.thetradedesk.com/v3/campaign" none
    (scenarioServer { statusCode := 401, text := "no", json := JsonVal.null }
      (authOkResponse "t0") { statusCode := 401, text := "no", json := JsonVal.null })
    (scenarioServer { statusCode := 401, text := "no", json := JsonVal.null }
      (authOkResponse "t0") { statusCode := 200, text := "ok", json := JsonVal.null })
    (fun _ => { statusCode := 500, text := "boom", json := JsonVal.null })
    (scenarioServer { statusCode := 401, text := "no", json := JsonVal.null }
      (authOkResponse "t0") { statusCode := 401, text := "no", json := JsonVal.null })
    "t0" "t0"
    (Or.inl rfl) rfl rfl rfl (Or.inl rfl) rfl rfl rfl rfl
    (by decide) (by decide) (by decide)
  refine ⟨?_, ?_, ?_, ?_, h.2.2.2⟩
  · rw [h.1.1]
    try rfl
  · rw [h.1.1]
    try rfl
  · rw [h.2.1]
    try rfl
  · rw [h.2.2.1]
    try rfl

/-- Whenever the first response is 401/403, the second network call of the
run is the auth call built with the hard-coded default lifetime of 90
minutes, whatever the refresh and retry then do. -/
theorem request_second_call_is_auth_90 (srv : Nat → HttpResponse) (st : ClientState)
    (method url : String) (body : Option JsonVal)
    (h0 : (srv 0).statusCode = 401 ∨ (srv 0).statusCode = 403) :
    (BaseTTDClient.request st (emptyWorld srv) method url body).world.calls.get? 1
      = some (BaseTTDClient.authCall st 90) := by
  have h0e : isErrorStatus (srv 0).statusCode = true := by
    rcases h0 with h | h <;> rw [h] <;> decide
  unfold BaseTTDClient.request sessionSend emptyWorld
  dsimp only
  rw [List.length_nil, if_pos h0e, if_pos h0]
  split
  · rw [refreshToken_world]
    simp
  · rw [refreshToken_world]
    split <;> simp

/-- C10: the 401/403-triggered mid-flight reauthentication requests a
token with the hard-coded default lifetime of 90 minutes, ignoring the
configured `token_expires_in`, while the lazy first acquisition through
the `token` getter requests the configured lifetime. -/
theorem claim_C10_reauth_lifetime
    (srvA srvB : Nat → HttpResponse) (stA stB : ClientState)
    (method url : String) (body : Option JsonVal)
    (hA0 : (srvA 0).statusCode = 401 ∨ (srvA 0).statusCode = 403)
    (hB : stB.token = none) :
    ((BaseTTDClient.request stA (emptyWorld srvA) method url body).world.calls.get? 1
        = some (BaseTTDClient.authCall stA 90) ∧
      (BaseTTDClient.authRequestBody stA 90).lookup "TokenExpirationInMinutes"
        = some (JsonVal.num 90)) ∧
    ((BaseTTDClient.getToken stB (emptyWorld srvB)).world.calls
        = [BaseTTDClient.authCall stB stB.tokenExpiresIn] ∧
      (BaseTTDClient.authRequestBody stB stB.tokenExpiresIn).lookup "TokenExpirationInMinutes"
        = some (JsonVal.num stB.tokenExpiresIn)) := by
  refine ⟨⟨request_second_call_is_auth_90 srvA stA method url body hA0, rfl⟩, ?_, rfl⟩
  unfold BaseTTDClient.getToken
  rw [hB]
  dsimp only
  split
  · rw [refreshToken_world]
    simp [emptyWorld]
  · rw [refreshToken_world]
    simp [emptyWorld]

/-- C10 witness: a client configured with a 240-minute token lifetime
still refreshes with 90 minutes on the reauth path, while its `token`
getter refreshes with 240 minutes. -/
theorem claim_C10_reauth_lifetime_witness :
    ((BaseTTDClient.request (initClient "u" "p" 240 "https://api.thetradedesk.com/v3/")
        (emptyWorld (scenarioServer { statusCode := 401, text := "no", json := JsonVal.null }
          (authOkResponse "t0") { statusCode := 200, text := "ok", json := JsonVal.null }))
        "GET" "https://api.thetradedesk.com/v3/campaign" none).world.calls.get? 1
        = some (BaseTTDClient.authCall (initClient "u" "p" 240 "https://api.thetradedesk.com/v3/") 90) ∧
      (BaseTTDClient.authRequestBody (initClient "u" "p" 240 "https://api.thetradedesk.com/v3/") 90).lookup
          "TokenExpirationInMinutes" = some (JsonVal.num 90)) ∧
    ((BaseTTDClient.getToken (initClient "u" "p" 240 "https://api.thetradedesk.com/v3/")
        (emptyWorld (fun _ => authOkResponse "t0"))).world.calls
        = [BaseTTDClient.authCall (initClient "u" "p" 240 "https://api.thetradedesk.com/v3/") 240] ∧
      (BaseTTDClient.authRequestBody (initClient "u" "p" 240 "https://api.thetradedesk.com/v3/") 240).lookup
          "TokenExpirationInMinutes" = some (JsonVal.num 240)) :=
  claim_C10_reauth_lifetime
    (scenarioServer { statusCode := 401, text := "no", json := JsonVal.null }
      (authOkResponse "t0") { statusCode := 200, text := "ok", json := JsonVal.null })
    (fun _ => authOkResponse "t0")
    (initClient "u" "p" 240 "https://api.thetradedesk.com/v3/")
    (initClient "u" "p" 240 "https://api.thetradedesk.com/v3/")
    "GET" "https://api.thetradedesk.com/v3/campaign" none
    (Or.inl rfl) rfl

/-- C2 exhibit: for a fresh client (no token), the first authenticated
operation issues its request to the target endpoint directly — the whole
trace against a 200-server is one single call, carrying no `TTD-Auth`
header, with no authentication call before (or ever). The inline comment
in `_request` ("this gets the token if one doesn't already exist") and the
spec both call for one authentication call first, which the code omits. -/
theorem claim_C2_no_preauth_call :
    (BaseTTDClient.get demoClient
        (emptyWorld (fun _ => { statusCode := 200, text := "ok", json := JsonVal.null }))
        "campaign/template/c1").world.calls
      = [{ method := "GET",
           url := "https://api.thetradedesk.com/v3/campaign/template/c1",
           jsonBody := none, ttdAuthHeader := none }] ∧
    (BaseTTDClient.get demoClient
        (emptyWorld (fun _ => { statusCode := 200, text := "ok", json := JsonVal.null }))
        "campaign/template/c1").value = Except.ok JsonVal.null := by
  constructor <;> rfl

/-- Outcome of driving a generator within a fuel bound: the loop broke on
its own, a Python exception propagated, or the modelling fuel ran out. -/
inductive GenOutcome where
  | finished
  | raised (e : PyExn)
  | outOfFuel

/-- A generator run: outcome, everything yielded before the end, and the
final client state and world. -/
structure GenRun (α : Type) where
  outcome : GenOutcome
  yields : List α
  state : ClientState
  world : World

/-- A 2xx response is returned as-is after exactly one call, from any
starting trace. -/
theorem request_ok_general (st : ClientState) (w : World) (method url : String)
    (body : Option JsonVal)
    (h : isErrorStatus (w.server w.calls.length).statusCode = false) :
    BaseTTDClient.request st w method url body =
      { value := Except.ok (w.server w.calls.length),
        state := st,
        world := { server := w.server,
                   calls := w.calls ++ [BaseTTDClient.targetCall st method url body] } } := by
  unfold BaseTTDClient.request sessionSend
  dsimp only
  rw [h]
  rfl

/-- Running `post` under a 2xx response: one call, body returned parsed. -/
theorem post_ok_general (st : ClientState) (w : World) (endpoint : String) (body : JsonVal)
    (h : isErrorStatus (w.server w.calls.length).statusCode = false) :
    BaseTTDClient.post st w endpoint body =
      { value := Except.ok (w.server w.calls.length).json,
        state := st,
        world := { server := w.server,
                   calls := w.calls ++ [BaseTTDClient.targetCall st "POST"
                     (buildUrl st.baseUrl endpoint) (some body)] } } := by
  unfold BaseTTDClient.post
  rw [request_ok_general st w "POST" (buildUrl st.baseUrl endpoint) (some body) h]
  rfl

/-- Whatever the server does, a `_request` run extends the trace with its
own target call first, keeps the oracle, and only ever appends. -/
theorem request_world_shape (st : ClientState) (w : World) (method url : String)
    (body : Option JsonVal) :
    ∃ rest, (BaseTTDClient.request st w method url body).world.calls
        = w.calls ++ BaseTTDClient.targetCall st method url body :: rest ∧
      (BaseTTDClient.request st w method url body).world.server = w.server := by
  unfold BaseTTDClient.request sessionSend
  dsimp only
  split
  · split
    · split
      · exact ⟨[BaseTTDClient.authCall st 90], by rw [refreshToken_world]; simp⟩
      · split <;>
          exact ⟨[BaseTTDClient.authCall st 90,
                  BaseTTDClient.targetCall
                    (BaseTTDClient.refreshToken st
                      { server := w.server, calls := w.calls ++ [BaseTTDClient.targetCall st method url body] }
                      90).state method url body],
                 by rw [refreshToken_world]; simp⟩
    · exact ⟨[], by simp⟩
  · exact ⟨[], by simp⟩

/-- The same trace shape for `post`. -/
theorem post_world_shape (st : ClientState) (w : World) (endpoint : String) (body : JsonVal) :
    ∃ rest, (BaseTTDClient.post st w endpoint body).world.calls
        = w.calls ++ BaseTTDClient.targetCall st "POST"
            (buildUrl st.baseUrl endpoint) (some body) :: rest ∧
      (BaseTTDClient.post st w endpoint body).world.server = w.server := by
  unfold BaseTTDClient.post
  exact request_world_shape st w "POST" (buildUrl st.baseUrl endpoint) (some body)

namespace BaseTTDClient

/-- The loop of `post_paginated`: POST the current payload, yield either
the whole parsed response (default) or each element of its `Result` list
(`stream_items`), stop as soon as the page is shorter than `page_size`,
otherwise advance `PageStartIndex` by `page_size`, re-merge the paging
params into the payload and repeat.  `fuel` bounds how many loop
iterations are modelled; the real generator is consumer-driven and
unbounded.  A missing `Result` key is the `KeyError` the indexing raises;
a non-list `Result` is the `TypeError` from taking its length. -/
def postPaginatedGo (endpoint : String) (pageSize : Int) (streamItems : Bool) :
    Int → List (String × JsonVal) → ClientState → World → Nat → GenRun JsonVal
  | _, _, st, w, 0 =>
    { outcome := GenOutcome.outOfFuel, yields := [], state := st, world := w }
  | startIndex, payload, st, w, Nat.succ fuel =>
    let r := post st w endpoint (JsonVal.obj payload)
    match r.value with
    | Except.error e =>
      { outcome := GenOutcome.raised e, yields := [], state := r.state, world := r.world }
    | Except.ok respJson =>
      match respJson.lookup "Result" with
      | some (JsonVal.arr items) =>
        let yielded := if streamItems then items else [respJson]
        if Int.ofNat items.length < pageSize then
          { outcome := GenOutcome.finished, yields := yielded, state := r.state, world := r.world }
        else
          let startIndex2 := startIndex + pageSize
          let payload2 := dictMerge payload
            [("PageStartIndex", JsonVal.num startIndex2), ("PageSize", JsonVal.num pageSize)]
          let rest := postPaginatedGo endpoint pageSize streamItems startIndex2 payload2
            r.state r.world fuel
          { outcome := rest.outcome, yields := yielded ++ rest.yields,
            state := rest.state, world := rest.world }
      | some _ =>
        { outcome := GenOutcome.raised (PyExn.typeError "Result"), yields := [],
          state := r.state, world := r.world }
      | none =>
        { outcome := GenOutcome.raised (PyExn.keyError "Result"), yields := [],
          state := r.state, world := r.world }

/-- Embedding of `BaseTTDClient.post_paginated`: merge the paging params (overwriting
any existing values under those keys) into the caller's payload, then run
the loop from the given start index. -/
def postPaginated (st : ClientState) (w : World) (endpoint : String)
    (jsonPayload : List (String × JsonVal)) (pageStartIndex pageSize : Int)
    (streamItems : Bool) (fuel : Nat) : GenRun JsonVal :=
  postPaginatedGo endpoint pageSize streamItems pageStartIndex
    (dictMerge jsonPayload
      [("PageStartIndex", JsonVal.num pageStartIndex), ("PageSize", JsonVal.num pageSize)])
    st w fuel

end BaseTTDClient

/-- The pagination loop only ever appends to the trace and keeps the
oracle, whatever the server returns. -/
theorem postPaginatedGo_world_shape (endpoint : String) (pageSize : Int) (streamItems : Bool) :
    ∀ (fuel : Nat) (startIndex : Int) (payload : List (String × JsonVal))
      (st : ClientState) (w : World),
      ∃ ext,
        (BaseTTDClient.postPaginatedGo endpoint pageSize streamItems
            startIndex payload st w fuel).world.calls = w.calls ++ ext ∧
        (BaseTTDClient.postPaginatedGo endpoint pageSize streamItems
            startIndex payload st w fuel).world.server = w.server := by
  intro fuel
  induction fuel with
  | zero =>
    intro k payload st w
    exact ⟨[], by simp [BaseTTDClient.postPaginatedGo]⟩
  | succ f ih =>
    intro k payload st w
    obtain ⟨rest0, hc0, hs0⟩ := post_world_shape st w endpoint (JsonVal.obj payload)
    simp only [BaseTTDClient.postPaginatedGo]
    split
    · exact ⟨_, by rw [hc0], hs0⟩
    · split
      · split
        · exact ⟨_, by rw [hc0], hs0⟩
        · obtain ⟨ext2, hc2, hs2⟩ := ih _ _
            (BaseTTDClient.post st w endpoint (JsonVal.obj payload)).state
            (BaseTTDClient.post st w endpoint (JsonVal.obj payload)).world
          refine ⟨BaseTTDClient.targetCall st "POST" (buildUrl st.baseUrl endpoint)
            (some (JsonVal.obj payload)) :: rest0 ++ ext2, ?_, ?_⟩
          · rw [hc2, hc0]
            simp
          · rw [hs2, hs0]
      · exact ⟨_, by rw [hc0], hs0⟩
      · exact ⟨_, by rw [hc0], hs0⟩

/-- With at least one unit of fuel, the loop issues the POST for its
current payload first, then only appends. -/
theorem postPaginatedGo_succ_world (endpoint : String) (pageSize : Int) (streamItems : Bool)
    (f : Nat) (startIndex : Int) (payload : List (String × JsonVal))
    (st : ClientState) (w : World) :
    ∃ ext,
      (BaseTTDClient.postPaginatedGo endpoint pageSize streamItems
          startIndex payload st w (Nat.succ f)).world.calls
        = w.calls ++ BaseTTDClient.targetCall st "POST" (buildUrl st.baseUrl endpoint)
            (some (JsonVal.obj payload)) :: ext ∧
      (BaseTTDClient.postPaginatedGo endpoint pageSize streamItems
          startIndex payload st w (Nat.succ f)).world.server = w.server := by
  obtain ⟨rest0, hc0, hs0⟩ := post_world_shape st w endpoint (JsonVal.obj payload)
  simp only [BaseTTDClient.postPaginatedGo]
  split
  · exact ⟨rest0, hc0, hs0⟩
  · split
    · split
      · exact ⟨rest0, hc0, hs0⟩
      · obtain ⟨ext2, hc2, hs2⟩ := postPaginatedGo_world_shape endpoint pageSize streamItems f _ _
          (BaseTTDClient.post st w endpoint (JsonVal.obj payload)).state
          (BaseTTDClient.post st w endpoint (JsonVal.obj payload)).world
        refine ⟨rest0 ++ ext2, ?_, ?_⟩
        · rw [hc2, hc0]
          simp
        · rw [hs2, hs0]
    · exact ⟨rest0, hc0, hs0⟩
    · exact ⟨rest0, hc0, hs0⟩

/-- The merged paging params always report the fresh `PageStartIndex`. -/
theorem dictFind_pagingMerge (payload : List (String × JsonVal)) (a b : JsonVal) :
    dictFind (dictMerge payload [("PageStartIndex", a), ("PageSize", b)]) "PageStartIndex"
      = some a := by
  simp only [dictMerge, List.foldl]
  rw [dictFind_dictSet_ne _ _ _ _ (by decide)]
  exact dictFind_dictSet_self payload "PageStartIndex" a

/-- After a full page (exactly `page_size` items) the loop always issues
one more request, whose body is the old payload re-merged with
`PageStartIndex` advanced by exactly `page_size`. -/
theorem postPaginatedGo_step_full (endpoint : String) (pageSize : Int) (streamItems : Bool)
    (startIndex : Int) (payload : List (String × JsonVal)) (st : ClientState) (w : World)
    (fuel : Nat) (items : List JsonVal)
    (hok : isErrorStatus (w.server w.calls.length).statusCode = false)
    (hres : (w.server w.calls.length).json.lookup "Result" = some (JsonVal.arr items))
    (hfull : Int.ofNat items.length = pageSize) :
    (BaseTTDClient.postPaginatedGo endpoint pageSize streamItems startIndex payload st w
        (Nat.succ (Nat.succ fuel))).world.calls.get? (w.calls.length + 1)
      = some (BaseTTDClient.targetCall st "POST" (buildUrl st.baseUrl endpoint)
          (some (JsonVal.obj (dictMerge payload
            [("PageStartIndex", JsonVal.num (startIndex + pageSize)),
             ("PageSize", JsonVal.num pageSize)])))) ∧
    w.calls.length + 2 ≤
      (BaseTTDClient.postPaginatedGo endpoint pageSize streamItems startIndex payload st w
        (Nat.succ (Nat.succ fuel))).world.calls.length := by
  have hnotlt : ¬(Int.ofNat items.length < pageSize) := by
    rw [hfull]
    exact lt_irrefl pageSize
  obtain ⟨f1, hf1⟩ : ∃ f1, f1 = Nat.succ fuel := ⟨Nat.succ fuel, rfl⟩
  rw [show Nat.succ (Nat.succ fuel) = Nat.succ f1 from by rw [hf1]]
  simp only [BaseTTDClient.postPaginatedGo]
  rw [post_ok_general st w endpoint (JsonVal.obj payload) hok]
  dsimp only
  rw [hres]
  dsimp only
  rw [if_neg hnotlt]
  dsimp only
  rw [hf1]
  obtain ⟨ext, hcalls, hserver⟩ := postPaginatedGo_succ_world endpoint pageSize streamItems
    fuel (startIndex + pageSize)
    (dictMerge payload
      [("PageStartIndex", JsonVal.num (startIndex + pageSize)),
       ("PageSize", JsonVal.num pageSize)])
    st
    { server := w.server,
      calls := w.calls ++ [BaseTTDClient.targetCall st "POST" (buildUrl st.baseUrl endpoint)
        (some (JsonVal.obj payload))] }
  rw [hcalls]
  dsimp only
  constructor
  · rw [List.append_assoc]
    rw [List.get?_append_right (by omega)]
    simp
  · simp [List.length_append]

/-- A scripted paginating server: the n-th call is answered 200 with a
`Result` list taken from `pages` (empty when the script runs out). -/
def pagesServer (pages : List (List JsonVal)) : Nat → HttpResponse :=
  fun n => { statusCode := 200, text := "",
             json := JsonVal.obj [("Result", JsonVal.arr (pages.getD n []))] }

/-- The `PageStartIndex` field of an outgoing call's JSON body. -/
def callPageStartIndex (c : HttpCall) : Option JsonVal :=
  match c.jsonBody with
  | some b => b.lookup "PageStartIndex"
  | none => none

/-- C3: after each full page (`Result` of exactly `page_size` items) the
loop issues its next request with `PageStartIndex` advanced by exactly
`page_size` in the outgoing body; in particular, for `page_size = 2`
against pages of sizes 2, 2, 1, exactly three requests occur with
`PageStartIndex` values 0, 2, 4 and all five items are yielded in
flattening mode. -/
theorem claim_C3_page_cursor_advance
    (endpoint : String) (pageSize : Int) (streamItems : Bool) (startIndex : Int)
    (payload : List (String × JsonVal)) (st : ClientState) (w : World)
    (fuel : Nat) (items : List JsonVal) (a1 a2 a3 a4 a5 : JsonVal)
    (hok : isErrorStatus (w.server w.calls.length).statusCode = false)
    (hres : (w.server w.calls.length).json.lookup "Result" = some (JsonVal.arr items))
    (hfull : Int.ofNat items.length = pageSize) :
    ((BaseTTDClient.postPaginatedGo endpoint pageSize streamItems startIndex payload st w
        (Nat.succ (Nat.succ fuel))).world.calls.get? (w.calls.length + 1)
      = some (BaseTTDClient.targetCall st "POST" (buildUrl st.baseUrl endpoint)
          (some (JsonVal.obj (dictMerge payload
            [("PageStartIndex", JsonVal.num (startIndex + pageSize)),
             ("PageSize", JsonVal.num pageSize)])))) ∧
      dictFind (dictMerge payload
        [("PageStartIndex", JsonVal.num (startIndex + pageSize)),
         ("PageSize", JsonVal.num pageSize)]) "PageStartIndex"
        = some (JsonVal.num (startIndex + pageSize))) ∧
    ((BaseTTDClient.postPaginated demoClient
        (emptyWorld (pagesServer [[a1, a2], [a3, a4], [a5]]))
        "sitelist/query/advertiser" [] 0 2 true 3).outcome = GenOutcome.finished ∧
      (BaseTTDClient.postPaginated demoClient
        (emptyWorld (pagesServer [[a1, a2], [a3, a4], [a5]]))
        "sitelist/query/advertiser" [] 0 2 true 3).yields = [a1, a2, a3, a4, a5] ∧
      (BaseTTDClient.postPaginated demoClient
        (emptyWorld (pagesServer [[a1, a2], [a3, a4], [a5]]))
        "sitelist/query/advertiser" [] 0 2 true 3).world.calls.length = 3 ∧
      (BaseTTDClient.postPaginated demoClient
        (emptyWorld (pagesServer [[a1, a2], [a3, a4], [a5]]))
        "sitelist/query/advertiser" [] 0 2 true 3).world.calls.map callPageStartIndex
        = [some (JsonVal.num 0), some (JsonVal.num 2), some (JsonVal.num 4)]) := by
  refine ⟨⟨(postPaginatedGo_step_full endpoint pageSize streamItems startIndex payload st w
      fuel items hok hres hfull).1, dictFind_pagingMerge payload _ _⟩, ?_, ?_, ?_, ?_⟩
  · rfl
  · rfl
  · rfl
  · rfl

/-- C3 witness: the pages-of-sizes-2-2-1 scenario run on concrete items,
via the claim instantiated at a concrete full first page. -/
theorem claim_C3_page_cursor_advance_witness :
    (BaseTTDClient.postPaginated demoClient
        (emptyWorld (pagesServer [[JsonVal.num 10, JsonVal.num 11],
          [JsonVal.num 12, JsonVal.num 13], [JsonVal.num 14]]))
        "sitelist/query/advertiser" [] 0 2 true 3).outcome = GenOutcome.finished ∧
    (BaseTTDClient.postPaginated demoClient
        (emptyWorld (pagesServer [[JsonVal.num 10, JsonVal.num 11],
          [JsonVal.num 12, JsonVal.num 13], [JsonVal.num 14]]))
        "sitelist/query/advertiser" [] 0 2 true 3).yields
      = [JsonVal.num 10, JsonVal.num 11, JsonVal.num 12, JsonVal.num 13, JsonVal.num 14] ∧
    (BaseTTDClient.postPaginated demoClient
        (emptyWorld (pagesServer [[JsonVal.num 10, JsonVal.num 11],
          [JsonVal.num 12, JsonVal.num 13], [JsonVal.num 14]]))
        "sitelist/query/advertiser" [] 0 2 true 3).world.calls.length = 3 ∧
    (BaseTTDClient.postPaginated demoClient
        (emptyWorld (pagesServer [[JsonVal.num 10, JsonVal.num 11],
          [JsonVal.num 12, JsonVal.num 13], [JsonVal.num 14]]))
        "sitelist/query/advertiser" [] 0 2 true 3).world.calls.map callPageStartIndex
      = [some (JsonVal.num 0), some (JsonVal.num 2), some (JsonVal.num 4)] :=
  (claim_C3_page_cursor_advance "sitelist/query/advertiser" 2 true 0 [] demoClient
    (emptyWorld (pagesServer [[JsonVal.num 10, JsonVal.num 11],
      [JsonVal.num 12, JsonVal.num 13], [JsonVal.num 14]]))
    1 [JsonVal.num 10, JsonVal.num 11]
    (JsonVal.num 10) (JsonVal.num 11) (JsonVal.num 12) (JsonVal.num 13) (JsonVal.num 14)
    rfl rfl rfl).2

/-- C4: a page with exactly `page_size` items always triggers at least one
further request (the loop cannot stop on a full page), while a first page
strictly shorter than `page_size` — in particular an empty one — ends the
run at once: the loop finishes, exactly one request was issued, and the
yields are that single page (whole-response mode) or its zero items
(flattening mode). -/
theorem claim_C4_pagination_boundary
    (endpointA : String) (pageSizeA : Int) (streamA : Bool) (kA : Int)
    (payloadA : List (String × JsonVal)) (stA : ClientState) (wA : World)
    (fuelA : Nat) (itemsA : List JsonVal)
    (endpointB : String) (pageSizeB : Int) (streamB : Bool) (kB : Int)
    (payloadB : List (String × JsonVal)) (stB : ClientState) (wB : World) (fuelB : Nat)
    (hokA : isErrorStatus (wA.server wA.calls.length).statusCode = false)
    (hresA : (wA.server wA.calls.length).json.lookup "Result" = some (JsonVal.arr itemsA))
    (hfullA : Int.ofNat itemsA.length = pageSizeA)
    (hokB : isErrorStatus (wB.server wB.calls.length).statusCode = false)
    (hresB : (wB.server wB.calls.length).json.lookup "Result"
      = some (JsonVal.arr ([] : List JsonVal)))
    (hposB : (0 : Int) < pageSizeB) :
    wA.calls.length + 2 ≤
      (BaseTTDClient.postPaginatedGo endpointA pageSizeA streamA kA payloadA stA wA
        (Nat.succ (Nat.succ fuelA))).world.calls.length ∧
    BaseTTDClient.postPaginatedGo endpointB pageSizeB streamB kB payloadB stB wB
        (Nat.succ fuelB)
      = { outcome := GenOutcome.finished,
          yields := if streamB then [] else [(wB.server wB.calls.length).json],
          state := stB,
          world := { server := wB.server,
                     calls := wB.calls ++ [BaseTTDClient.targetCall stB "POST"
                       (buildUrl stB.baseUrl endpointB) (some (JsonVal.obj payloadB))] } } := by
  refine ⟨(postPaginatedGo_step_full endpointA pageSizeA streamA kA payloadA stA wA
    fuelA itemsA hokA hresA hfullA).2, ?_⟩
  simp only [BaseTTDClient.postPaginatedGo]
  rw [post_ok_general stB wB endpointB (JsonVal.obj payloadB) hokB]
  dsimp only
  rw [hresB]
  dsimp only
  rw [if_pos (by simpa using hposB)]

/-- C4 witness: a full first page of two items (`page_size = 2`) forces a
second request, and an empty first page with `page_size = 100` terminates
after exactly one request with zero streamed items. -/
theorem claim_C4_pagination_boundary_witness :
    0 + 2 ≤
      (BaseTTDClient.postPaginatedGo "sitelist/query/advertiser" 2 true 0 []
        demoClient (emptyWorld (pagesServer [[JsonVal.num 10, JsonVal.num 11]]))
        (Nat.succ (Nat.succ 0))).world.calls.length ∧
    BaseTTDClient.postPaginatedGo "sitelist/query/advertiser" 100 true 0 []
        demoClient (emptyWorld (pagesServer [[]])) (Nat.succ 0)
      = { outcome := GenOutcome.finished,
          yields := [],
          state := demoClient,
          world := { server := pagesServer [[]],
                     calls := [BaseTTDClient.targetCall demoClient "POST"
                       (buildUrl demoClient.baseUrl "sitelist/query/advertiser")
                       (some (JsonVal.obj []))] } } := by
  have h := claim_C4_pagination_boundary "sitelist/query/advertiser" 2 true 0 []
    demoClient (emptyWorld (pagesServer [[JsonVal.num 10, JsonVal.num 11]])) 0
    [JsonVal.num 10, JsonVal.num 11]
    "sitelist/query/advertiser" 100 true 0 [] demoClient
    (emptyWorld (pagesServer [[]])) 0
    rfl rfl rfl rfl rfl (by decide)
  exact ⟨h.1, h.2⟩

/-- Python truthiness of a parsed JSON value, as the `while more_data`
loop applies it. -/
def truthy : JsonVal → Bool
  | JsonVal.str s => !(s == "")
  | JsonVal.num n => !(n == 0)
  | JsonVal.bool b => b
  | JsonVal.null => false
  | JsonVal.arr xs => !xs.isEmpty
  | JsonVal.obj fs => !fs.isEmpty

/-- Python `None` versus an integer for the optional starting tracking
version (`None` is serialized as JSON `null`). -/
def optVersionJson : Option Int → JsonVal
  | some n => JsonVal.num n
  | none => JsonVal.null

namespace TTDClient

/-- Embedding of `TTDClient._post_delta_endpoint`: one POST through the base client;
reads `resp[entity]` (which must be a list to iterate),
`resp['LastChangeTrackingVersion']` and `resp['More<entity>Available']`,
in that order.  A missing key is the corresponding `KeyError`; a non-list
entity value is the `TypeError` that `iter` raises. -/
def postDeltaEndpoint (st : ClientState) (w : World) (endpoint : String)
    (jsonPayload : JsonVal) (entity : String) :
    CallResult (List JsonVal × JsonVal × JsonVal) :=
  let r := BaseTTDClient.post st w endpoint jsonPayload
  match r.value with
  | Except.error e => { value := Except.error e, state := r.state, world := r.world }
  | Except.ok respJson =>
    match respJson.lookup entity with
    | none =>
      { value := Except.error (PyExn.keyError entity), state := r.state, world := r.world }
    | some (JsonVal.arr items) =>
      match respJson.lookup "LastChangeTrackingVersion" with
      | none =>
        { value := Except.error (PyExn.keyError "LastChangeTrackingVersion"),
          state := r.state, world := r.world }
      | some ver =>
        match respJson.lookup ("More" ++ entity ++ "Available") with
        | none =>
          { value := Except.error (PyExn.keyError ("More" ++ entity ++ "Available")),
            state := r.state, world := r.world }
        | some more =>
          { value := Except.ok (items, ver, more), state := r.state, world := r.world }
    | some _ =>
      { value := Except.error (PyExn.typeError entity), state := r.state, world := r.world }

/-- Embedding of `TTDClient._fetch_one_delta_campaign_for_advertiser`: one delta page
for the `Campaigns` entity. -/
def fetchOneDeltaCampaignForAdvertiser (st : ClientState) (w : World)
    (advertiserId : String) (lastChangeTrackingVersion : JsonVal) :
    CallResult (List JsonVal × JsonVal × JsonVal) :=
  postDeltaEndpoint st w "delta/campaign/query/advertiser"
    (JsonVal.obj [("AdvertiserId", JsonVal.str advertiserId),
                  ("ReturnEntireCampaign", JsonVal.bool true),
                  ("LastChangeTrackingVersion", lastChangeTrackingVersion)])
    "Campaigns"

/-- The `while more_data` loop of
`fetch_all_delta_campaigns_for_advertiser`: as long as the flag is truthy,
refetch with the *latest* tracking version and yield every item of the new
page paired with that page's fresh version — an empty page on these later
iterations yields nothing.  `fuel` bounds the modelled iterations. -/
def fetchAllDeltaCampaignsLoop (advertiserId : String) :
    JsonVal → JsonVal → ClientState → World → Nat → GenRun (Option JsonVal × JsonVal)
  | more, ver, st, w, fuel =>
    if truthy more then
      match fuel with
      | 0 => { outcome := GenOutcome.outOfFuel, yields := [], state := st, world := w }
      | Nat.succ f =>
        let r := fetchOneDeltaCampaignForAdvertiser st w advertiserId ver
        match r.value with
        | Except.error e =>
          { outcome := GenOutcome.raised e, yields := [], state := r.state, world := r.world }
        | Except.ok (items, newVer, more2) =>
          let rest := fetchAllDeltaCampaignsLoop advertiserId more2 newVer r.state r.world f
          { outcome := rest.outcome,
            yields := items.map (fun x => (some x, newVer)) ++ rest.yields,
            state := rest.state, world := rest.world }
    else { outcome := GenOutcome.finished, yields := [], state := st, world := w }

/-- Embedding of `TTDClient.fetch_all_delta_campaigns_for_advertiser`: fetch the first
page with the caller-provided version; an empty first page still yields
the single pair `(None, new_version)` so the cursor surfaces; a non-empty
one yields each item with the new version; then the loop runs while the
`more` flag is truthy. -/
def fetchAllDeltaCampaignsForAdvertiser (st : ClientState) (w : World)
    (advertiserId : String) (lastChangeTrackingVersion : Option Int) (fuel : Nat) :
    GenRun (Option JsonVal × JsonVal) :=
  let r := fetchOneDeltaCampaignForAdvertiser st w advertiserId
    (optVersionJson lastChangeTrackingVersion)
  match r.value with
  | Except.error e =>
    { outcome := GenOutcome.raised e, yields := [], state := r.state, world := r.world }
  | Except.ok (items, newVer, more) =>
    let firstYields : List (Option JsonVal × JsonVal) :=
      match items with
      | [] => [(none, newVer)]
      | x :: xs => (some x, newVer) :: xs.map (fun y => (some y, newVer))
    let rest := fetchAllDeltaCampaignsLoop advertiserId more newVer r.state r.world fuel
    { outcome := rest.outcome, yields := firstYields ++ rest.yields,
      state := rest.state, world := rest.world }

end TTDClient

/-- A 200 delta response for the `Campaigns` entity. -/
def deltaResponse (items : List JsonVal) (ver more : JsonVal) : HttpResponse :=
  { statusCode := 200, text := "",
    json := JsonVal.obj [("Campaigns", JsonVal.arr items),
                         ("LastChangeTrackingVersion", ver),
                         ("MoreCampaignsAvailable", more)] }

/-- The network call one delta-campaign page fetch issues. -/
def deltaCall (st : ClientState) (advertiserId : String) (ver : JsonVal) : HttpCall :=
  BaseTTDClient.targetCall st "POST" (buildUrl st.baseUrl "delta/campaign/query/advertiser")
    (some (JsonVal.obj [("AdvertiserId", JsonVal.str advertiserId),
                        ("ReturnEntireCampaign", JsonVal.bool true),
                        ("LastChangeTrackingVersion", ver)]))

/-- The `LastChangeTrackingVersion` field of an outgoing call's body. -/
def callTrackingVersion (c : HttpCall) : Option JsonVal :=
  match c.jsonBody with
  | some b => b.lookup "LastChangeTrackingVersion"
  | none => none

/-- When the `more` flag is falsy the delta loop stops at once: nothing
further is fetched or yielded, at any fuel. -/
theorem fetchAllDeltaLoop_false (advertiserId : String) (more ver : JsonVal)
    (st : ClientState) (w : World) (fuel : Nat) (h : truthy more = false) :
    TTDClient.fetchAllDeltaCampaignsLoop advertiserId more ver st w fuel
      = { outcome := GenOutcome.finished, yields := [], state := st, world := w } := by
  cases fuel <;> (simp only [TTDClient.fetchAllDeltaCampaignsLoop]; rw [h]; rfl)

/-- A successful delta page fetch: one POST, then the entity list, the
fresh tracking version and the more-available flag read off the body. -/
theorem postDeltaEndpoint_ok (st : ClientState) (w : World) (endpoint : String)
    (payload : JsonVal) (entity : String) (items : List JsonVal) (ver more : JsonVal)
    (hok : isErrorStatus (w.server w.calls.length).statusCode = false)
    (he : (w.server w.calls.length).json.lookup entity = some (JsonVal.arr items))
    (hv : (w.server w.calls.length).json.lookup "LastChangeTrackingVersion" = some ver)
    (hm : (w.server w.calls.length).json.lookup ("More" ++ entity ++ "Available") = some more) :
    TTDClient.postDeltaEndpoint st w endpoint payload entity
      = { value := Except.ok (items, ver, more), state := st,
          world := { server := w.server,
                     calls := w.calls ++ [BaseTTDClient.targetCall st "POST"
                       (buildUrl st.baseUrl endpoint) (some payload)] } } := by
  simp only [TTDClient.postDeltaEndpoint]
  rw [post_ok_general st w endpoint payload hok]
  dsimp only
  rw [he]
  dsimp only
  rw [hv]
  dsimp only
  rw [hm]

/-- One successful iteration of the delta loop: the page is fetched with
the current version, and each of its items is yielded with the response's
fresh version before the loop continues on the new flag and version. -/
theorem fetchAllDeltaLoop_step (advertiserId : String) (more ver : JsonVal)
    (st : ClientState) (w : World) (f : Nat)
    (items : List JsonVal) (newVer more2 : JsonVal)
    (htrue : truthy more = true)
    (hok : isErrorStatus (w.server w.calls.length).statusCode = false)
    (hc : (w.server w.calls.length).json.lookup "Campaigns" = some (JsonVal.arr items))
    (hv : (w.server w.calls.length).json.lookup "LastChangeTrackingVersion" = some newVer)
    (hm : (w.server w.calls.length).json.lookup "MoreCampaignsAvailable" = some more2) :
    TTDClient.fetchAllDeltaCampaignsLoop advertiserId more ver st w (Nat.succ f)
      = { outcome := (TTDClient.fetchAllDeltaCampaignsLoop advertiserId more2 newVer st
            { server := w.server, calls := w.calls ++ [deltaCall st advertiserId ver] } f).outcome,
          yields := items.map (fun x => (some x, newVer))
            ++ (TTDClient.fetchAllDeltaCampaignsLoop advertiserId more2 newVer st
            { server := w.server, calls := w.calls ++ [deltaCall st advertiserId ver] } f).yields,
          state := (TTDClient.fetchAllDeltaCampaignsLoop advertiserId more2 newVer st
            { server := w.server, calls := w.calls ++ [deltaCall st advertiserId ver] } f).state,
          world := (TTDClient.fetchAllDeltaCampaignsLoop advertiserId more2 newVer st
            { server := w.server, calls := w.calls ++ [deltaCall st advertiserId ver] } f).world } := by
  simp only [TTDClient.fetchAllDeltaCampaignsLoop, TTDClient.fetchOneDeltaCampaignForAdvertiser]
  rw [htrue]
  rw [postDeltaEndpoint_ok st w "delta/campaign/query/advertiser" _ "Campaigns" items newVer
    more2 hok hc hv
    (by rw [show ("More" ++ "Campaigns" ++ "Available") = "MoreCampaignsAvailable" from rfl]
        exact hm)]
  rfl

/-- The first page of a delta-campaigns run: the single POST is issued
with the caller-provided version; an empty item list still produces the
`(None, version)` pair, a non-empty one produces one pair per item, and
the loop takes over from the new flag and version. -/
theorem fetchAllDelta_first_page (st : ClientState) (w : World) (advertiserId : String)
    (lastVer : Option Int) (fuel : Nat) (items : List JsonVal) (newVer more : JsonVal)
    (hok : isErrorStatus (w.server w.calls.length).statusCode = false)
    (hc : (w.server w.calls.length).json.lookup "Campaigns" = some (JsonVal.arr items))
    (hv : (w.server w.calls.length).json.lookup "LastChangeTrackingVersion" = some newVer)
    (hm : (w.server w.calls.length).json.lookup "MoreCampaignsAvailable" = some more) :
    TTDClient.fetchAllDeltaCampaignsForAdvertiser st w advertiserId lastVer fuel
      = { outcome := (TTDClient.fetchAllDeltaCampaignsLoop advertiserId more newVer st
            { server := w.server,
              calls := w.calls ++ [deltaCall st advertiserId (optVersionJson lastVer)] } fuel).outcome,
          yields := (match items with
            | [] => [(none, newVer)]
            | x :: xs => (some x, newVer) :: xs.map (fun y => (some y, newVer)))
            ++ (TTDClient.fetchAllDeltaCampaignsLoop advertiserId more newVer st
            { server := w.server,
              calls := w.calls ++ [deltaCall st advertiserId (optVersionJson lastVer)] } fuel).yields,
          state := (TTDClient.fetchAllDeltaCampaignsLoop advertiserId more newVer st
            { server := w.server,
              calls := w.calls ++ [deltaCall st advertiserId (optVersionJson lastVer)] } fuel).state,
          world := (TTDClient.fetchAllDeltaCampaignsLoop advertiserId more newVer st
            { server := w.server,
              calls := w.calls ++ [deltaCall st advertiserId (optVersionJson lastVer)] } fuel).world } := by
  cases items with
  | nil =>
    simp only [TTDClient.fetchAllDeltaCampaignsForAdvertiser,
      TTDClient.fetchOneDeltaCampaignForAdvertiser]
    rw [postDeltaEndpoint_ok st w "delta/campaign/query/advertiser" _ "Campaigns" [] newVer
      more hok hc hv
      (by rw [show ("More" ++ "Campaigns" ++ "Available") = "MoreCampaignsAvailable" from rfl]
          exact hm)]
    rfl
  | cons x xs =>
    simp only [TTDClient.fetchAllDeltaCampaignsForAdvertiser,
      TTDClient.fetchOneDeltaCampaignForAdvertiser]
    rw [postDeltaEndpoint_ok st w "delta/campaign/query/advertiser" _ "Campaigns" (x :: xs)
      newVer more hok hc hv
      (by rw [show ("More" ++ "Campaigns" ++ "Available") = "MoreCampaignsAvailable" from rfl]
          exact hm)]
    rfl

/-- Later delta pages never produce a cursor-only pair: every yield of the
loop carries an item. -/
theorem fetchAllDeltaLoop_no_none (advertiserId : String) :
    ∀ (fuel : Nat) (more ver : JsonVal) (st : ClientState) (w : World),
      ((TTDClient.fetchAllDeltaCampaignsLoop advertiserId more ver st w fuel).yields).all
        (fun p => p.1.isSome) = true := by
  intro fuel
  induction fuel with
  | zero =>
    intro more ver st w
    simp only [TTDClient.fetchAllDeltaCampaignsLoop]
    split
    · rfl
    · rfl
  | succ f ih =>
    intro more ver st w
    simp only [TTDClient.fetchAllDeltaCampaignsLoop]
    split
    · split
      · rfl
      · simp only [GenRun.yields, List.all_append, List.all_map]
        refine Bool.and_eq_true_iff.mpr ⟨?_, ih _ _ _ _⟩
        simp [Function.comp]
    · rfl

/-- C5: a delta-campaigns run whose first page has zero items yields
exactly one pair `(none, new_tracking_version)` — the cursor surfaces even
with no payload (here with `more_available = false`, so the run ends after
that single call); with an arbitrary `more` flag the first segment is
still exactly the single cursor pair before the loop's yields; and the
loop over subsequent pages never emits a cursor-only pair at all — an
empty later page yields nothing, so only the very first page guarantees a
cursor-only emission on emptiness. -/
theorem claim_C5_delta_empty_first_page
    (advId : String) (lastVer : Option Int) (V M : JsonVal) (st : ClientState) (f : Nat) :
    TTDClient.fetchAllDeltaCampaignsForAdvertiser st
        (emptyWorld (fun _ => deltaResponse [] V (JsonVal.bool false))) advId lastVer f
      = { outcome := GenOutcome.finished,
          yields := [(none, V)],
          state := st,
          world := { server := fun _ => deltaResponse [] V (JsonVal.bool false),
                     calls := [deltaCall st advId (optVersionJson lastVer)] } } ∧
    (TTDClient.fetchAllDeltaCampaignsForAdvertiser st
        (emptyWorld (fun _ => deltaResponse [] V M)) advId lastVer f).yields
      = (none, V) :: (TTDClient.fetchAllDeltaCampaignsLoop advId M V st
          { server := fun _ => deltaResponse [] V M,
            calls := [deltaCall st advId (optVersionJson lastVer)] } f).yields ∧
    (∀ (fuel : Nat) (more ver : JsonVal) (st2 : ClientState) (w2 : World),
      ((TTDClient.fetchAllDeltaCampaignsLoop advId more ver st2 w2 fuel).yields).all
        (fun p => p.1.isSome) = true) := by
  refine ⟨?_, ?_, fun fuel more ver st2 w2 => fetchAllDeltaLoop_no_none advId fuel more ver st2 w2⟩
  · rw [fetchAllDelta_first_page st
      (emptyWorld (fun _ => deltaResponse [] V (JsonVal.bool false))) advId lastVer f
      [] V (JsonVal.bool false) rfl rfl rfl rfl]
    rw [fetchAllDeltaLoop_false advId (JsonVal.bool false) V st _ f rfl]
    rfl
  · rw [fetchAllDelta_first_page st
      (emptyWorld (fun _ => deltaResponse [] V M)) advId lastVer f [] V M rfl rfl rfl rfl]
    rfl

/-- C6: while `more_available` is truthy the next delta page is fetched
with the *latest* tracking version — the second request's
`LastChangeTrackingVersion` body field is the first response's version —
and every item is yielded with its own page's version: one item under
`V1` with `more = true`, then two items under `V2` with `more = false`,
yield exactly `(item1, V1), (item2, V2), (item3, V2)` after exactly two
calls. -/
theorem claim_C6_delta_multipage
    (advId : String) (lastVer : Option Int) (i1 i2 i3 V1 V2 : JsonVal)
    (st : ClientState) (f : Nat) :
    TTDClient.fetchAllDeltaCampaignsForAdvertiser st
        (emptyWorld (scenarioServer (deltaResponse [i1] V1 (JsonVal.bool true))
          (deltaResponse [i2, i3] V2 (JsonVal.bool false))
          (deltaResponse [i2, i3] V2 (JsonVal.bool false))))
        advId lastVer (Nat.succ f)
      = { outcome := GenOutcome.finished,
          yields := [(some i1, V1), (some i2, V2), (some i3, V2)],
          state := st,
          world := { server := scenarioServer (deltaResponse [i1] V1 (JsonVal.bool true))
                       (deltaResponse [i2, i3] V2 (JsonVal.bool false))
                       (deltaResponse [i2, i3] V2 (JsonVal.bool false)),
                     calls := [deltaCall st advId (optVersionJson lastVer),
                               deltaCall st advId V1] } } ∧
    callTrackingVersion (deltaCall st advId V1) = some V1 := by
  refine ⟨?_, rfl⟩
  rw [fetchAllDelta_first_page st
    (emptyWorld (scenarioServer (deltaResponse [i1] V1 (JsonVal.bool true))
      (deltaResponse [i2, i3] V2 (JsonVal.bool false))
      (deltaResponse [i2, i3] V2 (JsonVal.bool false))))
    advId lastVer (Nat.succ f) [i1] V1 (JsonVal.bool true) rfl rfl rfl rfl]
  rw [fetchAllDeltaLoop_step advId (JsonVal.bool true) V1 st
    { server := (emptyWorld (scenarioServer (deltaResponse [i1] V1 (JsonVal.bool true))
        (deltaResponse [i2, i3] V2 (JsonVal.bool false))
        (deltaResponse [i2, i3] V2 (JsonVal.bool false)))).server,
      calls := (emptyWorld (scenarioServer (deltaResponse [i1] V1 (JsonVal.bool true))
        (deltaResponse [i2, i3] V2 (JsonVal.bool false))
        (deltaResponse [i2, i3] V2 (JsonVal.bool false)))).calls
        ++ [deltaCall st advId (optVersionJson lastVer)] }
    f [i2, i3] V2 (JsonVal.bool false) rfl rfl rfl rfl rfl]
  rw [fetchAllDeltaLoop_false advId (JsonVal.bool false) V2 st _ f rfl]
  rfl
